import Mathlib

/-!
Verification development for the LFAST primary mirror controller firmware
(files `src/include/primary_mirror_ctrl.h` and `src/src/main.cpp`).

The kinematics of `MirrorStates::getMotorPosnCommands` is embedded over the
real numbers: the firmware computes in IEEE doubles, and the properties
examined here concern the exact mathematical map the code spells out, so
`Real.tan` and `Real.cos` stand in for `std::tan` and `std::cos`, and the
C-style cast from `double` to a signed integer step type is modelled as
truncation toward zero (its meaning for in-range values).

Command handlers from `main.cpp` are embedded as pure functions returning the
list of messages they send and the controller state they leave behind.  The
bodies of `stopNow`, `checkForNewCommand`, `resetPositionsInEeprom` and
`loadCurrentPositionsFromEeprom` live in a translation unit that is not part
of this tree; where a property depends on them they are modelled from the
specification text, and each such definition says so in its doc comment.
-/

namespace PMC

/-- Constant from `primary_mirror_ctrl.h`: `MICROSTEP_DIVIDER = 16`. -/
noncomputable def MICROSTEP_DIVIDER : ℝ := 16

/-- Constant from `primary_mirror_ctrl.h`:
`MICRON_PER_STEP = 3 * (1.0 / MICROSTEP_DIVIDER)` (the microstep ratio
constant is inlined here). -/
noncomputable def MICRON_PER_STEP : ℝ := 3 * (1 / MICROSTEP_DIVIDER)

/-- Constant from `primary_mirror_ctrl.h`: `STEPS_PER_MICRON = 1.0 / MICRON_PER_STEP`. -/
noncomputable def STEPS_PER_MICRON : ℝ := 1 / MICRON_PER_STEP

/-- The coefficient array `const double c[3] = MIRROR_MATH_COEFFS`, that is
`{281.3, -140.6, 243.6}`, from `primary_mirror_ctrl.h`. -/
noncomputable def c : Fin 3 → ℝ := ![281.3, -140.6, 243.6]

/-- The engineering-unit command record `MirrorStates`
(`primary_mirror_ctrl.h`, lines 122-165): tip and tilt in radians, focus in
microns. -/
structure MirrorStates where
  TIP_POS_ENG : ℝ
  TILT_POS_ENG : ℝ
  FOCUS_POS_ENG : ℝ

/-- Truncation toward zero: the value of the C-style cast `(T)d` from
`double` to a signed integer type `T`, for values representable in `T`. -/
noncomputable def cppIntCast (x : ℝ) : ℤ := if 0 ≤ x then ⌊x⌋ else ⌈x⌉

/-- The local `a_distance` computed by `MirrorStates::getMotorPosnCommands`:
`gamma + (c[0] * tanAlpha)`. -/
noncomputable def MirrorStates.a_distance (s : MirrorStates) : ℝ :=
  s.FOCUS_POS_ENG + c 0 * Real.tan s.TIP_POS_ENG

/-- The local `b_distance` computed by `MirrorStates::getMotorPosnCommands`:
`gamma + (c[1] * tanAlpha + c[2] * tanBeta / cosAlpha)`. -/
noncomputable def MirrorStates.b_distance (s : MirrorStates) : ℝ :=
  s.FOCUS_POS_ENG +
    (c 1 * Real.tan s.TIP_POS_ENG +
      c 2 * Real.tan s.TILT_POS_ENG / Real.cos s.TIP_POS_ENG)

/-- The local `c_distance` computed by `MirrorStates::getMotorPosnCommands`:
`gamma + (c[1] * tanAlpha - c[2] * tanBeta / cosAlpha)`. -/
noncomputable def MirrorStates.c_distance (s : MirrorStates) : ℝ :=
  s.FOCUS_POS_ENG +
    (c 1 * Real.tan s.TIP_POS_ENG -
      c 2 * Real.tan s.TILT_POS_ENG / Real.cos s.TIP_POS_ENG)

/-- `MirrorStates::getMotorPosnCommands` (`primary_mirror_ctrl.h`, lines
142-158) instantiated at a signed integer step type, as used for the
`int32_t` command-step fields: each distance is scaled by `STEPS_PER_MICRON`
and converted with the C cast (truncation toward zero). -/
noncomputable def MirrorStates.getMotorPosnCommands (s : MirrorStates) : ℤ × ℤ × ℤ :=
  (cppIntCast (s.a_distance * STEPS_PER_MICRON),
   cppIntCast (s.b_distance * STEPS_PER_MICRON),
   cppIntCast (s.c_distance * STEPS_PER_MICRON))

/-- The spec formula for `distA` from section 4.1 of the specification,
written from the spec text: `distA = focus + c0*tanTip`. -/
noncomputable def specDistA (tip focus : ℝ) : ℝ := focus + c 0 * Real.tan tip

/-- The spec formula for `distB`: `distB = focus + c1*tanTip + c2*tanTilt/cosTip`. -/
noncomputable def specDistB (tip tilt focus : ℝ) : ℝ :=
  focus + c 1 * Real.tan tip + c 2 * Real.tan tilt / Real.cos tip

/-- The spec formula for `distC`: `distC = focus + c1*tanTip - c2*tanTilt/cosTip`. -/
noncomputable def specDistC (tip tilt focus : ℝ) : ℝ :=
  focus + c 1 * Real.tan tip - c 2 * Real.tan tilt / Real.cos tip

/-- The spec step conversion, written from the spec text:
`steps[i] = round(dist[i] * STEPS_PER_MICRON)` (round to nearest step). -/
noncomputable def specSteps (dist : ℝ) : ℤ := round (dist * STEPS_PER_MICRON)

/-! ## Command buffer (double buffering, `primary_mirror_ctrl.h` and spec 4.2)

The shadow and active `AxisTarget` instances are the two `MirrorStates`
members `ShadowCommandStates_Eng` and `CommandStates_Eng` of
`PrimaryMirrorControl`, together with the three per-axis updated flags
(`tipUpdated`, `tiltUpdated`, `focusUpdated`).  Each setter and the
shadow-to-active copy run inside an interrupt-disable window
(`noInterrupts` / `interrupts` in `main.cpp` around the setters, and in
`MirrorStates::operator=` around the copy), so each is one atomic event with
respect to the control tick. -/

/-- An engineering-unit axis target: one command buffer slot. -/
structure AxisTarget where
  tip : ℝ
  tilt : ℝ
  focus : ℝ

/-- The double-buffered command state: shadow and active targets plus the
per-axis updated flags from `PrimaryMirrorControl`. -/
structure CmdBuffer where
  shadow : AxisTarget
  active : AxisTarget
  tipUpdated : Bool
  tiltUpdated : Bool
  focusUpdated : Bool

/-- One atomic event acting on the command buffer: a foreground setter call
or the control-tick call of `checkForNewCommand`. -/
inductive BufEvent where
  | setTipTarget (v : ℝ)
  | setTiltTarget (v : ℝ)
  | setFocusTarget (v : ℝ)
  | tickCheckForNewCommand

/-- Modelled from the spec: the transition of each atomic buffer event.
The setters write one shadow field and raise its updated flag inside a
critical section; `checkForNewCommand` (whose body is not under `src/`)
"compares shadow against active; if any of the three per-axis updated flags
is set, copies shadow to active as a single atomic block and clears the
flags" (spec 4.2); the copy itself is `MirrorStates::operator=`, which the
header wraps in `noInterrupts` / `interrupts`. -/
def bufStep (b : CmdBuffer) : BufEvent → CmdBuffer
  | .setTipTarget v =>
      { b with shadow := { b.shadow with tip := v }, tipUpdated := true }
  | .setTiltTarget v =>
      { b with shadow := { b.shadow with tilt := v }, tiltUpdated := true }
  | .setFocusTarget v =>
      { b with shadow := { b.shadow with focus := v }, focusUpdated := true }
  | .tickCheckForNewCommand =>
      if b.tipUpdated || b.tiltUpdated || b.focusUpdated then
        { b with active := b.shadow,
                 tipUpdated := false, tiltUpdated := false, focusUpdated := false }
      else b

/-- Run a sequence of atomic buffer events from a given buffer state. -/
def bufRun (b : CmdBuffer) (es : List BufEvent) : CmdBuffer :=
  es.foldl bufStep b

/-! ## Motion state machine surface and command handlers (`main.cpp`) -/

/-- The `MOVE_STATE` enumeration of `PrimaryMirrorControl`
(`primary_mirror_ctrl.h`, lines 231-239). -/
inductive MOVE_STATE where
  | IDLE
  | NEW_MOVE_CMD
  | MOVE_IN_PROGRESS
  | MOVE_COMPLETE
  | LIMIT_SW_DETECT
  | HOMING_IS_ACTIVE
deriving DecidableEq

/-- The controller state visible to the stop path: the motion state and the
commanded velocity of the three actuators (steps per second). -/
structure ControllerState where
  currentMoveState : MOVE_STATE
  A_cmdVel : ℚ
  B_cmdVel : ℚ
  C_cmdVel : ℚ
deriving DecidableEq

/-- Modelled from the spec: `PrimaryMirrorControl::stopNow` (its body is not
under `src/`).  Spec 4.3: "Any state → IDLE on Stop() (unconditional,
highest priority, executed synchronously ...)"; spec 8.3: "from every
MoveState, Stop() deterministically results in MoveState == IDLE and zero
commanded velocity on all actuators". -/
def stopNow (s : ControllerState) : ControllerState :=
  { s with currentMoveState := .IDLE, A_cmdVel := 0, B_cmdVel := 0, C_cmdVel := 0 }

/-- The `stop` command handler of `main.cpp` (lines 233-245): it calls
`stopNow` and then unconditionally replies with the key-value pair
`("Stopped", "$OK^")`. -/
def stopHandler (s : ControllerState) : ControllerState × List (String × String) :=
  (stopNow s, [("Stopped", "$OK^")])

/-- The `handshake` command handler of `main.cpp` (lines 155-165): when the
argument equals `0xDEAD` it sends the key-value pair `("Handshake", 0xBEEF)`;
otherwise it just returns.  It never touches the mirror controller state. -/
def handshake (val : ℕ) (s : ControllerState) : ControllerState × List (String × ℕ) :=
  if val = 0xDEAD then (s, [("Handshake", 0xBEEF)]) else (s, [])

/-- The `ControlMode` enumeration of `LFAST::PMC`
(`primary_mirror_ctrl.h`, lines 86-91). -/
inductive ControlMode where
  | STOP
  | RELATIVE
  | ABSOLUTE
deriving DecidableEq

/-- The numeric value of each `ControlMode` enumerator. -/
def ControlMode.val : ControlMode → ℕ
  | .STOP => 0
  | .RELATIVE => 1
  | .ABSOLUTE => 2

/-- The observable effect of the `moveType` command handler: the arguments
passed to `setControlMode` and the messages sent back to the client. -/
structure MoveTypeEffect where
  setControlModeArgs : List ℕ
  sentMessages : List (String × ℕ)
deriving DecidableEq

/-- The `moveType` command handler of `main.cpp` (lines 167-180): it forwards
the raw argument to `setControlMode`; the range check and the
`("MoveError", 0x0BAD)` reply are commented out in the source, so no message
is ever sent. -/
def moveType (type : ℕ) : MoveTypeEffect :=
  { setControlModeArgs := [type], sentMessages := [] }

/-! ## Status query (`main.cpp` lines 224-231, header line 188) -/

/-- The `MOTOR_ID` enumeration of `LFAST::PMC`. -/
inductive MOTOR_ID where
  | MOTOR_A
  | MOTOR_B
  | MOTOR_C
deriving DecidableEq, Fintype

/-- The per-axis status bits named by the interface comment in
`primary_mirror_ctrl.h` ("Bits are Faulted, Home and Moving") and by spec
section 6: `{faulted, home, moving}`. -/
structure StatusBits where
  faulted : Bool
  home : Bool
  moving : Bool
deriving DecidableEq, Fintype

/-- The return type of `bool PrimaryMirrorControl::getStatus(uint8_t motor)`
as declared in `primary_mirror_ctrl.h`, line 188: one boolean per motor. -/
abbrev GetStatusResult := Bool

/-- The `getStatus` command handler of `main.cpp` (lines 224-231),
parametrised by the per-motor boolean the controller reports: it sends one
boolean key-value pair per motor, keyed `"ARunning?"`, `"BRunning?"`,
`"CRunning?"`. -/
def getStatusHandler (st : MOTOR_ID → GetStatusResult) : List (String × Bool) :=
  [("ARunning?", st .MOTOR_A), ("BRunning?", st .MOTOR_B), ("CRunning?", st .MOTOR_C)]

/-! ## Notifier flags and the foreground loop (`main.cpp`) -/

/-- The two notifier hooks the controller header offers
(`setMoveNotifierFlag` and `setHomingCompleteNotifierFlag`,
`primary_mirror_ctrl.h`, lines 195-196). -/
inductive Notifier where
  | moveComplete
  | homingComplete
deriving DecidableEq

/-- The notifier registrations actually performed by `setup()` in
`main.cpp`: only `setMoveNotifierFlag(&moveCompleteFlag)` is called (line
115); `setHomingCompleteNotifierFlag` is never called. -/
def setupRegisteredNotifiers : List Notifier := [.moveComplete]

/-- The foreground state polled by `loop()`: `main.cpp` declares a single
flag, `volatile bool moveCompleteFlag`. -/
structure ForegroundState where
  moveCompleteFlag : Bool
deriving DecidableEq

/-- The notifier-polling tail of `loop()` in `main.cpp` (lines 143-150): if
`moveCompleteFlag` is set, send `("MoveComplete", 0xBEEF)` and clear the
flag; otherwise do nothing.  No other notifier is polled. -/
def loopPollNotifiers (s : ForegroundState) : ForegroundState × List (String × ℕ) :=
  if s.moveCompleteFlag then
    ({ moveCompleteFlag := false }, [("MoveComplete", 0xBEEF)])
  else (s, [])

/-! ## Position persistence (`main.cpp` setup, spec 4.6) -/

/-- The persistent position record of spec section 3:
`{ a: i32, b: i32, c: i32, valid: bool }`. -/
structure PersistentPositionRecord where
  A_steps : ℤ
  B_steps : ℤ
  C_steps : ℤ
  valid : Bool
deriving DecidableEq

/-- Modelled from the spec: `PrimaryMirrorControl::resetPositionsInEeprom`
(its body is not under `src/`).  Spec 4.6: "reset(): forces valid=false,
used at first-boot provisioning to guarantee homing is required". -/
def resetPositionsInEeprom (r : PersistentPositionRecord) : PersistentPositionRecord :=
  { r with valid := false }

/-- Modelled from the spec: `PrimaryMirrorControl::loadCurrentPositionsFromEeprom`
(its body is not under `src/`).  Spec 4.6: "load() -> Option(StepCounts):
returns None if the stored valid marker is unset or the record is
unreadable". -/
def loadCurrentPositionsFromEeprom (r : PersistentPositionRecord) : Option (ℤ × ℤ × ℤ) :=
  if r.valid then some (r.A_steps, r.B_steps, r.C_steps) else none

/-- The EEPROM call sequence of `setup()` in `main.cpp` (lines 116-117):
first `resetPositionsInEeprom()`, then `loadCurrentPositionsFromEeprom()`.
The result pairs the record left in storage with the step counts the load
restores. -/
def setupEepromCalls (r : PersistentPositionRecord) :
    PersistentPositionRecord × Option (ℤ × ℤ × ℤ) :=
  let r1 := resetPositionsInEeprom r
  (r1, loadCurrentPositionsFromEeprom r1)

/-! ## Helper lemmas -/

/-- The conversion constant evaluates to 16/3 steps per micron. -/
lemma steps_per_micron_eq : STEPS_PER_MICRON = 16 / 3 := by
  unfold STEPS_PER_MICRON MICRON_PER_STEP MICROSTEP_DIVIDER
  norm_num

/-- The first mirror coefficient. -/
lemma c_zero_eq : c 0 = 281.3 := by simp [c]

/-- Bounds on the tangent of one centiradian, tight enough to settle the
regression fixture: `0.0099997 < tan 0.01 < 0.0100006`. -/
lemma tan_centirad_bounds :
    (0.0099997 : ℝ) < Real.tan 0.01 ∧ Real.tan 0.01 < 0.0100006 := by
  have h0 : (0 : ℝ) < 0.01 := by norm_num
  have hsl : Real.sin 0.01 < 0.01 := Real.sin_lt h0
  have hsg2 := Real.sin_gt_sub_cube h0 (by norm_num : (0.01 : ℝ) ≤ 1)
  have hsg : (0.00999975 : ℝ) < Real.sin 0.01 := by
    norm_num at hsg2
    linarith
  have hcg2 := Real.one_sub_sq_div_two_lt_cos (show (0.01 : ℝ) ≠ 0 by norm_num)
  have hcg : (0.99995 : ℝ) < Real.cos 0.01 := by
    norm_num at hcg2
    linarith
  have hcpos : (0 : ℝ) < Real.cos 0.01 := by linarith
  have hcle : Real.cos 0.01 ≤ 1 := Real.cos_le_one 0.01
  have ht : Real.tan 0.01 = Real.sin 0.01 / Real.cos 0.01 := Real.tan_eq_sin_div_cos 0.01
  constructor
  · rw [ht, lt_div_iff₀ hcpos]
    nlinarith
  · rw [ht, div_lt_iff₀ hcpos]
    nlinarith

/-- Bounds on the A-actuator distance at the regression fixture
`tip = 0.01, tilt = 0, focus = 50`. -/
lemma a_distance_fixture_bounds :
    (52.8129 : ℝ) < (⟨0.01, 0, 50⟩ : MirrorStates).a_distance ∧
      (⟨0.01, 0, 50⟩ : MirrorStates).a_distance < 52.8132 := by
  obtain ⟨h1, h2⟩ := tan_centirad_bounds
  show (52.8129 : ℝ) < 50 + c 0 * Real.tan 0.01 ∧
    50 + c 0 * Real.tan 0.01 < (52.8132 : ℝ)
  rw [c_zero_eq]
  constructor <;> nlinarith

/-- The A-actuator step count at the regression fixture is 281: the scaled
distance lies in `[281, 282)` and the C cast truncates. -/
lemma stepsA_fixture : (MirrorStates.getMotorPosnCommands ⟨0.01, 0, 50⟩).1 = 281 := by
  obtain ⟨h1, h2⟩ := a_distance_fixture_bounds
  show cppIntCast ((⟨0.01, 0, 50⟩ : MirrorStates).a_distance * STEPS_PER_MICRON) = 281
  rw [steps_per_micron_eq]
  unfold cppIntCast
  rw [if_pos (by nlinarith)]
  rw [Int.floor_eq_iff]
  constructor
  · push_cast
    nlinarith
  · push_cast
    nlinarith

/-! ## Claims -/

/-- C2: the claim says the persistent position record is read at startup
without being invalidated first.  The code is wrong: `setup()` calls
`resetPositionsInEeprom()` before `loadCurrentPositionsFromEeprom()`, so a
record holding calibrated steps `(100, 200, 300)` with `valid = true` (which
on its own would load fine, second conjunct) is invalidated first and the
load at startup restores nothing (first conjunct). -/
theorem C2_setup_loses_calibration :
    (setupEepromCalls ⟨100, 200, 300, true⟩).2 = none ∧
      loadCurrentPositionsFromEeprom ⟨100, 200, 300, true⟩ = some (100, 200, 300) :=
  ⟨rfl, rfl⟩

/-- C3: after any prior event history, writing the three shadow fields of one
command (tip, then tilt, then focus) and then running the control-tick
`checkForNewCommand` leaves the active target equal to exactly that command,
never a mix of fields from different commands. -/
theorem C3_no_torn_active (b : CmdBuffer) (pre : List BufEvent) (t l f : ℝ) :
    (bufRun b (pre ++ [BufEvent.setTipTarget t, BufEvent.setTiltTarget l,
        BufEvent.setFocusTarget f, BufEvent.tickCheckForNewCommand])).active =
      ⟨t, l, f⟩ := by
  simp [bufRun, List.foldl_append, bufStep]

/-- C4: from every controller state (hence from every `MoveState` value),
the stop path results in `MoveState = IDLE`, zero commanded velocity on all
three actuators, and the handler always replies `("Stopped", "$OK^")`. -/
theorem C4_stop_total (s : ControllerState) :
    (stopHandler s).1.currentMoveState = MOVE_STATE.IDLE ∧
      (stopHandler s).1.A_cmdVel = 0 ∧ (stopHandler s).1.B_cmdVel = 0 ∧
      (stopHandler s).1.C_cmdVel = 0 ∧
      (stopHandler s).2 = [("Stopped", "$OK^")] :=
  ⟨rfl, rfl, rfl, rfl, rfl⟩

/-- C6: the status query cannot return the three bits faulted/home/moving.
The handler reports exactly one boolean per motor (first conjunct evaluates
it), and no decoding of the single-`bool` return value of `getStatus` can be
surjective onto the eight `StatusBits` values (second conjunct). -/
theorem C6_single_bool_status :
    getStatusHandler (fun _ => true) =
        [("ARunning?", true), ("BRunning?", true), ("CRunning?", true)] ∧
      ¬ ∃ f : GetStatusResult → StatusBits, Function.Surjective f := by
  refine ⟨rfl, ?_⟩
  decide

/-- C7 counterexample: the claim says both notifier flags are registered at
startup, but `setup()` registers only the move-complete notifier; the
homing-complete notifier is never registered (and `loop()` never polls it). -/
theorem C7_counterexample :
    Notifier.homingComplete ∉ setupRegisteredNotifiers := by decide

/-- C7 amended: the foreground loop polls only the move-complete flag once
per iteration, reports `("MoveComplete", 0xBEEF)` and clears it when set,
does nothing when clear, and only the move-complete notifier is registered
at startup. -/
theorem C7_move_notifier_only (s : ForegroundState) :
    (s.moveCompleteFlag = true →
        loopPollNotifiers s = (⟨false⟩, [("MoveComplete", 0xBEEF)])) ∧
      (s.moveCompleteFlag = false → loopPollNotifiers s = (s, [])) ∧
      Notifier.homingComplete ∉ setupRegisteredNotifiers := by
  refine ⟨?_, ?_, by decide⟩
  · intro h
    simp [loopPollNotifiers, h]
  · intro h
    simp [loopPollNotifiers, h]

/-- C7 witness: the amended theorem applied at a set move-complete flag. -/
theorem C7_move_notifier_only_witness :
    loopPollNotifiers ⟨true⟩ = (⟨false⟩, [("MoveComplete", 0xBEEF)]) :=
  (C7_move_notifier_only ⟨true⟩).1 rfl

/-- C9: for every unsigned argument, including values outside the
`ControlMode` enumeration, the `moveType` handler forwards the raw value to
`setControlMode` and sends no reply at all (in particular no error reply). -/
theorem C9_moveType_unvalidated (t : ℕ) :
    (moveType t).setControlModeArgs = [t] ∧ (moveType t).sentMessages = [] :=
  ⟨rfl, rfl⟩

/-- C10: the handshake handler leaves the controller state unchanged for
every argument, sends `("Handshake", 0xBEEF)` exactly when the argument is
`0xDEAD`, and sends nothing otherwise. -/
theorem C10_handshake_iff (val : ℕ) (s : ControllerState) :
    (handshake val s).1 = s ∧
      ((handshake val s).2 = [("Handshake", 0xBEEF)] ↔ val = 0xDEAD) ∧
      (val ≠ 0xDEAD → (handshake val s).2 = []) := by
  unfold handshake
  by_cases h : val = 0xDEAD
  · simp [h]
  · simp [h]

/-- C10 witness: the handshake theorem applied at argument 0, where no
message is sent and the state is unchanged. -/
theorem C10_handshake_iff_witness :
    (handshake 0 ⟨MOVE_STATE.IDLE, 0, 0, 0⟩).2 = [] :=
  (C10_handshake_iff 0 ⟨MOVE_STATE.IDLE, 0, 0, 0⟩).2.2 (by decide)

/-- C1 counterexample: at `tip = 0, tilt = 0, focus = 1/2` the code returns
the truncating cast `2` for the A actuator, while the claimed
`round(dist * STEPS_PER_MICRON)` is `3`: the code does not round to the
nearest step. -/
theorem C1_counterexample :
    (MirrorStates.getMotorPosnCommands ⟨0, 0, 1/2⟩).1 ≠
      specSteps (specDistA 0 (1/2)) := by
  have hlhs : (MirrorStates.getMotorPosnCommands ⟨0, 0, 1/2⟩).1 = 2 := by
    show cppIntCast ((⟨0, 0, 1/2⟩ : MirrorStates).a_distance * STEPS_PER_MICRON) = 2
    have hd : (⟨0, 0, 1/2⟩ : MirrorStates).a_distance = 1/2 := by
      show (1 / 2 : ℝ) + c 0 * Real.tan 0 = 1/2
      simp
    rw [hd, steps_per_micron_eq]
    unfold cppIntCast
    rw [if_pos (by norm_num)]
    rw [Int.floor_eq_iff]
    constructor <;> norm_num
  have hrhs : specSteps (specDistA 0 (1/2)) = 3 := by
    unfold specSteps specDistA
    rw [steps_per_micron_eq]
    simp only [Real.tan_zero, mul_zero, add_zero]
    rw [round_eq, Int.floor_eq_iff]
    constructor <;> norm_num
  rw [hlhs, hrhs]
  decide

/-- C1 amended: the three distances computed by `getMotorPosnCommands` agree
exactly with the spec formulas for distA, distB, distC, but each integer
step count is the C cast (truncation toward zero) of
`dist * STEPS_PER_MICRON`, not the rounding to the nearest step. -/
theorem C1_amended (s : MirrorStates) :
    s.getMotorPosnCommands.1 =
        cppIntCast (specDistA s.TIP_POS_ENG s.FOCUS_POS_ENG * STEPS_PER_MICRON) ∧
      s.getMotorPosnCommands.2.1 =
        cppIntCast (specDistB s.TIP_POS_ENG s.TILT_POS_ENG s.FOCUS_POS_ENG *
          STEPS_PER_MICRON) ∧
      s.getMotorPosnCommands.2.2 =
        cppIntCast (specDistC s.TIP_POS_ENG s.TILT_POS_ENG s.FOCUS_POS_ENG *
          STEPS_PER_MICRON) := by
  refine ⟨rfl, ?_, ?_⟩
  · show cppIntCast _ = cppIntCast _
    congr 1
    unfold MirrorStates.b_distance specDistB
    ring
  · show cppIntCast _ = cppIntCast _
    congr 1
    unfold MirrorStates.c_distance specDistC
    ring

/-- C8: negating the tilt input exchanges the B and C step outputs and
leaves the A step output unchanged; in particular at `tilt = 0` the B and C
step counts coincide. -/
theorem C8_tilt_negation (tip tilt focus : ℝ) :
    (MirrorStates.getMotorPosnCommands ⟨tip, -tilt, focus⟩).1 =
        (MirrorStates.getMotorPosnCommands ⟨tip, tilt, focus⟩).1 ∧
      (MirrorStates.getMotorPosnCommands ⟨tip, -tilt, focus⟩).2.1 =
        (MirrorStates.getMotorPosnCommands ⟨tip, tilt, focus⟩).2.2 ∧
      (MirrorStates.getMotorPosnCommands ⟨tip, -tilt, focus⟩).2.2 =
        (MirrorStates.getMotorPosnCommands ⟨tip, tilt, focus⟩).2.1 ∧
      (MirrorStates.getMotorPosnCommands ⟨tip, 0, focus⟩).2.1 =
        (MirrorStates.getMotorPosnCommands ⟨tip, 0, focus⟩).2.2 := by
  refine ⟨rfl, ?_, ?_, ?_⟩
  · show cppIntCast _ = cppIntCast _
    congr 1
    simp only [MirrorStates.b_distance, MirrorStates.c_distance, Real.tan_neg]
    ring
  · show cppIntCast _ = cppIntCast _
    congr 1
    simp only [MirrorStates.b_distance, MirrorStates.c_distance, Real.tan_neg]
    ring
  · show cppIntCast _ = cppIntCast _
    congr 1
    simp only [MirrorStates.b_distance, MirrorStates.c_distance, Real.tan_zero]
    ring

/-- C5 counterexample: at the regression fixture `tip = 0.01, tilt = 0,
focus = 50` the code returns 281 A-actuator steps, not the claimed 282: the
scaled distance is about 281.67 and the C cast truncates instead of
rounding. -/
theorem C5_counterexample :
    (MirrorStates.getMotorPosnCommands ⟨0.01, 0, 50⟩).1 ≠ 282 := by
  rw [stepsA_fixture]
  decide

/-- C5 amended: with the header coefficients and `STEPS_PER_MICRON = 16/3`,
the fixture `tip = 0.01, tilt = 0, focus = 50` yields
`distA = 50 + 281.3 * tan 0.01` between 52.80 and 52.82 as claimed, but an
A-actuator step count of 281 (truncation of about 281.67), not 282. -/
theorem C5_amended :
    STEPS_PER_MICRON = 16 / 3 ∧
      (52.80 : ℝ) < (⟨0.01, 0, 50⟩ : MirrorStates).a_distance ∧
      (⟨0.01, 0, 50⟩ : MirrorStates).a_distance < 52.82 ∧
      (MirrorStates.getMotorPosnCommands ⟨0.01, 0, 50⟩).1 = 281 := by
  obtain ⟨h1, h2⟩ := a_distance_fixture_bounds
  exact ⟨steps_per_micron_eq, by linarith, by linarith, stepsA_fixture⟩

end PMC
